import Mathlib

/-!
Verification of the Smart Study Platform backend (Node/Express/Mongoose).

This file gives a shallow embedding in Lean 4 of the parts of the backend
that the specification's claims are about:

* the Review model (`backend/models/Review.js`): the statistics aggregation
  `getStatistics`, the helpfulness-vote method `addHelpfulVote`, the
  `helpfulnessPercentage` virtual, and the post-save hook that writes the
  recomputed aggregate back onto the parent Note;
* the reviews controller (`controllers/reviewsController.js`): createReview,
  updateReview, deleteReview, voteOnReview, reportReview;
* the auth middleware (`backend/middleware/auth.js`): protect, teacherOnly,
  checkOwnership, and the notes routes that compose them;
* the notes controller upload handler (`uploadNote`) and its validator;
* the auth controller `forgotPassword` handler;
* the analytics controller `getStudentProgress`: the learning-streak loop and
  the per-subject performance computation.

Modelling conventions: Mongo ObjectIds are `Nat`; the document collections
are Lean lists; a controller action is a function from the database state to
`Except ErrorResponse` of the new state (an `Except.error` result models the
Express handler calling `next(new ErrorResponse(msg, status))`, in which case
no write has happened); JavaScript numbers that the code rounds to one
decimal place are represented exactly in tenths (`averageRatingTenths`),
with `Math.round` on a non-negative rational `s / c` scaled by ten embedded
as the integer `(20 * s + c) / (2 * c)`.

A semantic point that matters below: `ReviewSchema.post('save')` runs after
`Review.create` and after every `review.save()` (createReview, updateReview,
voteOnReview, reportReview), but `ReviewSchema.post('remove')` middleware is
only triggered by `document.remove()`, and the controller's deleteReview
calls `review.deleteOne()`, which does not fire `'remove'` hooks in any
Mongoose version.  The embedding therefore recomputes the Note aggregate on
the save paths and not on the delete path, exactly as the code behaves.
-/

namespace SmartStudy

/-- Error signalled to `next(new ErrorResponse(message, statusCode))`
(`backend/middleware/ErrorResponse.js`). -/
structure ErrorResponse where
  message : String
  statusCode : Nat
deriving Repr, DecidableEq

/-- The four boolean category flags of a Review
(`ReviewSchema.categories`). -/
structure Categories where
  helpful : Bool := false
  clear : Bool := false
  complete : Bool := false
  accurate : Bool := false
deriving Repr, DecidableEq

/-- A Review document (`backend/models/Review.js`).  `id` is the Mongo
`_id`; timestamps and the moderator reference are not needed by any claim. -/
structure Review where
  id : Nat
  noteId : Nat
  studentId : Nat
  rating : Nat
  comment : String := ""
  categories : Categories := {}
  isActive : Bool := true
  isApproved : Bool := true
  moderationNote : String := ""
  helpfulVotes : Nat := 0
  totalVotes : Nat := 0
deriving Repr, DecidableEq

/-- A Note document (`backend/models/Note.js`), restricted to the fields the
claims touch.  `averageRatingTenths` stores ten times the stored
`averageRating` (the code always writes a one-decimal value there). -/
structure Note where
  id : Nat
  title : String
  description : String
  subject : String
  grade : String
  uploadedBy : Nat
  hasFile : Bool := false
  isPublic : Bool := true
  isActive : Bool := true
  downloadCount : Nat := 0
  viewCount : Nat := 0
  averageRatingTenths : Nat := 0
  ratingCount : Nat := 0
deriving Repr, DecidableEq

/-- Database state: the Note and Review collections. -/
structure DB where
  notes : List Note
  reviews : List Review
deriving Repr, DecidableEq

/-- `Model.findById` over a list collection: first document with the id. -/
def findNote (notes : List Note) (id : Nat) : Option Note :=
  notes.find? (fun n => n.id == id)

/-- `Review.findById`. -/
def findReview (reviews : List Review) (id : Nat) : Option Review :=
  reviews.find? (fun r => r.id == id)

/-- `Math.round(10 * s / c)` for non-negative integers `s`, `c > 0`:
JavaScript `Math.round` is floor of the argument plus one half, so scaled by
`2 * c` this is integer division.  This is the "rounded to one decimal"
value `Math.round(avg * 10) / 10` of the code, held in tenths. -/
def roundTenths (s c : Nat) : Nat :=
  (20 * s + c) / (2 * c)

/-- The statistics record returned by `Review.getStatistics`:
average rating (in tenths), total count, the 1..5 star histogram and the
four category counters. -/
structure Statistics where
  averageRatingTenths : Nat
  totalReviews : Nat
  dist1 : Nat
  dist2 : Nat
  dist3 : Nat
  dist4 : Nat
  dist5 : Nat
  catHelpful : Nat
  catClear : Nat
  catComplete : Nat
  catAccurate : Nat
deriving Repr, DecidableEq

/-- The zero/empty default statistics returned when no review qualifies. -/
def zeroStatistics : Statistics :=
  ⟨0, 0, 0, 0, 0, 0, 0, 0, 0, 0, 0⟩

/-- The `$match` stage of `getStatistics` (and of `getForNote` and the
count query): reviews of the note with `isActive: true, isApproved: true`. -/
def qualifying (reviews : List Review) (noteId : Nat) : List Review :=
  reviews.filter (fun r => r.noteId == noteId && r.isActive && r.isApproved)

/-- Statistics of a given list of qualifying reviews (the non-empty branch
of `getStatistics`). -/
def statisticsOf (q : List Review) : Statistics :=
  { averageRatingTenths := roundTenths ((q.map (fun r => r.rating)).sum) q.length
    totalReviews := q.length
    dist1 := (q.filter (fun r => r.rating == 1)).length
    dist2 := (q.filter (fun r => r.rating == 2)).length
    dist3 := (q.filter (fun r => r.rating == 3)).length
    dist4 := (q.filter (fun r => r.rating == 4)).length
    dist5 := (q.filter (fun r => r.rating == 5)).length
    catHelpful := (q.filter (fun r => r.categories.helpful)).length
    catClear := (q.filter (fun r => r.categories.clear)).length
    catComplete := (q.filter (fun r => r.categories.complete)).length
    catAccurate := (q.filter (fun r => r.categories.accurate)).length }

/-- `Review.getStatistics(noteId)` (`backend/models/Review.js`): aggregate
over the active approved reviews of the note; on an empty aggregation result
return the zero defaults, otherwise the rounded average, the count, the star
histogram and the category counts.  The embedded function is total: it
returns a `Statistics` value on every input and signals no error. -/
def getStatistics (reviews : List Review) (noteId : Nat) : Statistics :=
  let q := qualifying reviews noteId
  if q.length = 0 then zeroStatistics else statisticsOf q

/-- `Note.findByIdAndUpdate(noteId, { averageRating, ratingCount })` as
performed by the Review save hook. -/
def writeAggregate (notes : List Note) (noteId : Nat) (stats : Statistics) :
    List Note :=
  notes.map (fun n =>
    if n.id == noteId then
      { n with averageRatingTenths := stats.averageRatingTenths
               ratingCount := stats.totalReviews }
    else n)

/-- `ReviewSchema.post('save')`: after a review for `noteId` is saved,
recompute the statistics and write average/count onto the Note. -/
def postSaveHook (db : DB) (noteId : Nat) : DB :=
  { db with notes := writeAggregate db.notes noteId (getStatistics db.reviews noteId) }

/-- `Review.save()` modelled as replacing the stored document with the given
id by the new contents, then running the post-save hook. -/
def saveReview (db : DB) (r : Review) : DB :=
  postSaveHook
    { db with reviews := db.reviews.map (fun x => if x.id == r.id then r else x) }
    r.noteId

/-- `createReview` (`controllers/reviewsController.js`): look the note up,
require it active and public, reject when this student already has a review
for it, otherwise insert the new review (active, auto-approved, zero votes)
and let the post-save hook refresh the Note aggregate.  `newId` stands for
the `_id` Mongo generates. -/
def createReview (db : DB) (userId newId noteId rating : Nat)
    (comment : String) (categories : Categories) :
    Except ErrorResponse DB :=
  match findNote db.notes noteId with
  | none => .error ⟨"Note not found", 404⟩
  | some note =>
    if !(note.isActive && note.isPublic) then
      .error ⟨"Note is not available for review", 400⟩
    else if db.reviews.any (fun r => r.noteId == noteId && r.studentId == userId) then
      .error ⟨"You have already reviewed this note. Use update instead.", 400⟩
    else
      let r : Review :=
        { id := newId, noteId := noteId, studentId := userId
          rating := rating, comment := comment, categories := categories }
      .ok (postSaveHook { db with reviews := db.reviews ++ [r] } noteId)

/-- The optional fields of a review-update request body. -/
structure ReviewUpdateBody where
  rating : Option Nat := none
  comment : Option String := none
  categories : Option Categories := none
deriving Repr, DecidableEq

/-- `updateReview`: find the review, check the caller owns it, overwrite the
allowed fields that are present in the body, save (hook runs). -/
def updateReview (db : DB) (userId reviewId : Nat) (body : ReviewUpdateBody) :
    Except ErrorResponse DB :=
  match findReview db.reviews reviewId with
  | none => .error ⟨"Review not found", 404⟩
  | some review =>
    if review.studentId != userId then
      .error ⟨"You can only update your own reviews", 403⟩
    else
      let review' :=
        { review with
            rating := body.rating.getD review.rating
            comment := body.comment.getD review.comment
            categories := body.categories.getD review.categories }
      .ok (saveReview db review')

/-- `deleteReview`: find the review, check ownership, then
`review.deleteOne()`.  `deleteOne` does not trigger the schema's
`post('remove')` middleware, so no statistics recompute and no Note
update happen on this path. -/
def deleteReview (db : DB) (userId reviewId : Nat) :
    Except ErrorResponse DB :=
  match findReview db.reviews reviewId with
  | none => .error ⟨"Review not found", 404⟩
  | some review =>
    if review.studentId != userId then
      .error ⟨"You can only delete your own reviews", 403⟩
    else
      .ok { db with reviews := db.reviews.filter (fun r => !(r.id == reviewId)) }

/-- `ReviewSchema.methods.addHelpfulVote(isHelpful)`: bump `totalVotes`, and
`helpfulVotes` when the vote is helpful (the subsequent `save` is modelled
at the call site). -/
def addHelpfulVote (r : Review) (isHelpful : Bool) : Review :=
  { r with totalVotes := r.totalVotes + 1
           helpfulVotes := if isHelpful then r.helpfulVotes + 1 else r.helpfulVotes }

/-- The `helpfulnessPercentage` virtual: `0` when there are no votes,
otherwise `Math.round(helpfulVotes / totalVotes * 100)`. -/
def helpfulnessPercentage (r : Review) : Nat :=
  if r.totalVotes == 0 then 0
  else (200 * r.helpfulVotes + r.totalVotes) / (2 * r.totalVotes)

/-- `voteOnReview`: require a boolean `helpful` field (modelled by the typed
argument), find the review, apply `addHelpfulVote` and save it. -/
def voteOnReview (db : DB) (reviewId : Nat) (helpful : Bool) :
    Except ErrorResponse DB :=
  match findReview db.reviews reviewId with
  | none => .error ⟨"Review not found", 404⟩
  | some review => .ok (saveReview db (addHelpfulVote review helpful))

/-- `reportReview`: find the review, set `isApproved := false`, record the
moderation note and save (the post-save hook then refreshes the Note
aggregate).  `nowIso` stands for `new Date().toISOString()`. -/
def reportReview (db : DB) (userId reviewId : Nat) (nowIso : String) :
    Except ErrorResponse DB :=
  match findReview db.reviews reviewId with
  | none => .error ⟨"Review not found", 404⟩
  | some review =>
    let review' :=
      { review with
          isApproved := false
          moderationNote :=
            "Reported by user " ++ toString userId ++ " on " ++ nowIso }
    .ok (saveReview db review')

/-! ### Auth middleware and the notes routes -/

/-- The two account roles. -/
inductive Role where
  | teacher
  | student
deriving Repr, DecidableEq

/-- The caller identity the `protect` middleware attaches to the request:
the User document loaded from the verified token's id. -/
structure AuthUser where
  id : Nat
  role : Role
  isActive : Bool := true
deriving Repr, DecidableEq

/-- `protect` (`backend/middleware/auth.js`): reject when no valid bearer
token resolves to a user (`caller = none` models a missing, malformed or
unknown-user token), reject deactivated accounts, otherwise attach the
user. -/
def protect (caller : Option AuthUser) : Except ErrorResponse AuthUser :=
  match caller with
  | none => .error ⟨"Access denied. No token provided.", 401⟩
  | some u =>
    if !u.isActive then .error ⟨"Account has been deactivated.", 401⟩
    else .ok u

/-- `teacherOnly`: after `protect` has attached `req.user`, reject any
caller whose role is not `teacher` with a 403. -/
def teacherOnly (u : AuthUser) : Except ErrorResponse Unit :=
  if u.role != Role.teacher then
    .error ⟨"Access denied. Teacher access required.", 403⟩
  else .ok ()

/-- `studentOnly`: reject any caller whose role is not `student`. -/
def studentOnly (u : AuthUser) : Except ErrorResponse Unit :=
  if u.role != Role.student then
    .error ⟨"Access denied. Student access required.", 403⟩
  else .ok ()

/-- `checkOwnership(Note)`: resolve the resource by the route id, 404 when
absent, 403 when its `uploadedBy` differs from the caller's id, otherwise
attach it to the request. -/
def checkOwnership (notes : List Note) (u : AuthUser) (resourceId : Nat) :
    Except ErrorResponse Note :=
  match findNote notes resourceId with
  | none => .error ⟨"Resource not found.", 404⟩
  | some resource =>
    if resource.uploadedBy != u.id then
      .error ⟨"Access denied. You can only modify your own resources.", 403⟩
    else .ok resource

/-- Multipart file metadata produced by the upload middleware
(`getFileInfo(req.file)`), restricted to what the claims need. -/
structure FileInfo where
  originalFileName : String
  fileSize : Nat
  mimeType : String
deriving Repr, DecidableEq

/-- The body of a create-Note request. -/
structure NoteBody where
  title : String
  description : String
  subject : String
  grade : String
  category : Option String := none
  difficulty : Option String := none
deriving Repr, DecidableEq

/-- Length of a string after the validator's `.trim()` sanitizer, computed
    on the character list (leading and trailing whitespace removed). -/
def trimLen (s : String) : Nat :=
  (((s.data.dropWhile Char.isWhitespace).reverse.dropWhile
      Char.isWhitespace).reverse).length

/-- The allowed category values of the validator and the schema enum. -/
def categoryValues : List String :=
  ["lecture-notes", "assignment", "reference-material", "quiz", "exam", "other"]

/-- The allowed difficulty values. -/
def difficultyValues : List String :=
  ["beginner", "intermediate", "advanced"]

/-- `validateNote` (express-validator chain of the notes controller): the
collected error messages, empty exactly when the metadata is valid. -/
def validateNote (b : NoteBody) : List String :=
  (if 3 ≤ trimLen b.title && trimLen b.title ≤ 100 then []
   else ["Title must be between 3 and 100 characters"]) ++
  (if 10 ≤ trimLen b.description && trimLen b.description ≤ 1000 then []
   else ["Description must be between 10 and 1000 characters"]) ++
  (if trimLen b.subject != 0 then [] else ["Subject is required"]) ++
  (if trimLen b.grade != 0 then [] else ["Grade is required"]) ++
  (match b.category with
   | none => []
   | some c => if categoryValues.contains c then [] else ["Invalid category"]) ++
  (match b.difficulty with
   | none => []
   | some d => if difficultyValues.contains d then [] else ["Invalid difficulty level"])

/-- `uploadNote` (`controllers/notesController.js`): reject when the
validator collected errors (joined message, 400); reject when no file was
attached (`if (!req.file)`) with 400 "Please upload a file"; otherwise
create the Note owned by the caller.  `newId` stands for the generated
`_id`. -/
def uploadNote (db : DB) (u : AuthUser) (body : NoteBody)
    (file : Option FileInfo) (newId : Nat) : Except ErrorResponse DB :=
  let errs := validateNote body
  if errs.length != 0 then
    .error ⟨String.intercalate ", " errs, 400⟩
  else
    match file with
    | none => .error ⟨"Please upload a file", 400⟩
    | some _ =>
      let note : Note :=
        { id := newId, title := body.title, description := body.description
          subject := body.subject, grade := body.grade
          uploadedBy := u.id, hasFile := true }
      .ok { db with notes := db.notes ++ [note] }

/-- The optional fields of a Note-update request body that the controller
copies onto the document. -/
structure NoteUpdateBody where
  title : Option String := none
  description : Option String := none
  subject : Option String := none
  grade : Option String := none
  isPublic : Option Bool := none
deriving Repr, DecidableEq

/-- `updateNote` handler body (after `checkOwnership` attached the note):
copy the allowed fields that are present, handle a replacement file, and
save the note. -/
def updateNote (db : DB) (note : Note) (body : NoteUpdateBody)
    (file : Option FileInfo) : Except ErrorResponse DB :=
  let note' :=
    { note with
        title := body.title.getD note.title
        description := body.description.getD note.description
        subject := body.subject.getD note.subject
        grade := body.grade.getD note.grade
        isPublic := body.isPublic.getD note.isPublic
        hasFile := note.hasFile || file.isSome }
  .ok { db with notes := db.notes.map (fun n => if n.id == note.id then note' else n) }

/-- `deleteNote` handler body: best-effort file cleanup (no state here),
`Review.deleteMany({ noteId })`, then delete the note itself. -/
def deleteNote (db : DB) (note : Note) : Except ErrorResponse DB :=
  .ok { notes := db.notes.filter (fun n => !(n.id == note.id))
        reviews := db.reviews.filter (fun r => !(r.noteId == note.id)) }

/-- `POST /api/notes` (`backend/routes/notes.js`): `protect`, `teacherOnly`,
the optional-file upload middleware (which never rejects a missing file),
`validateNote` (checked inside the controller) and `uploadNote`. -/
def postNoteRoute (db : DB) (caller : Option AuthUser) (body : NoteBody)
    (file : Option FileInfo) (newId : Nat) : Except ErrorResponse DB :=
  match protect caller with
  | .error e => .error e
  | .ok u =>
    match teacherOnly u with
    | .error e => .error e
    | .ok _ => uploadNote db u body file newId

/-- `PUT /api/notes/:id`: `protect`, `teacherOnly`, `checkOwnership(Note)`,
then the `updateNote` handler. -/
def putNoteRoute (db : DB) (caller : Option AuthUser) (noteId : Nat)
    (body : NoteUpdateBody) (file : Option FileInfo) : Except ErrorResponse DB :=
  match protect caller with
  | .error e => .error e
  | .ok u =>
    match teacherOnly u with
    | .error e => .error e
    | .ok _ =>
      match checkOwnership db.notes u noteId with
      | .error e => .error e
      | .ok note => updateNote db note body file

/-- `DELETE /api/notes/:id`: `protect`, `teacherOnly`,
`checkOwnership(Note)`, then the `deleteNote` handler. -/
def deleteNoteRoute (db : DB) (caller : Option AuthUser) (noteId : Nat) :
    Except ErrorResponse DB :=
  match protect caller with
  | .error e => .error e
  | .ok u =>
    match teacherOnly u with
    | .error e => .error e
    | .ok _ =>
      match checkOwnership db.notes u noteId with
      | .error e => .error e
      | .ok note => deleteNote db note

/-- The state (`.ok` has produced new state, `.error` has not) resulting
from a route call: errors leave the database untouched. -/
def applyResult (db : DB) : Except ErrorResponse DB → DB
  | .ok db' => db'
  | .error _ => db

/-! ### forgotPassword (`backend/controllers/authController.js`) -/

/-- A stored user account, restricted to the fields `forgotPassword`
touches. -/
structure Account where
  email : String
  name : String
  passwordResetToken : Option String := none
  passwordResetExpire : Option Nat := none
deriving Repr, DecidableEq

/-- The JSON envelope a successful `forgotPassword` call sends. -/
structure ForgotPasswordReply where
  accounts : List Account
  success : Bool
  message : String
deriving Repr, DecidableEq

/-- `forgotPassword`: 400 when the body has no email; respond 200 success
when no account matches (anti-enumeration); otherwise persist the hashed
reset token with a 15-minute expiry and respond 200 success whether the
reset email could be sent (`emailSendOk`) or not (the dev fallback returns
the reset link, still with `success: true`).  `hashedToken` stands for the
SHA-256 of the random token, `now` for `Date.now()`. -/
def forgotPassword (accounts : List Account) (email : Option String)
    (hashedToken : String) (now : Nat) (emailSendOk : Bool) :
    Except ErrorResponse ForgotPasswordReply :=
  match email with
  | none => .error ⟨"Email is required", 400⟩
  | some e =>
    match accounts.find? (fun a => a.email == e.toLower) with
    | none =>
      .ok ⟨accounts, true, "If an account exists, an email has been sent"⟩
    | some _ =>
      let accounts' := accounts.map (fun a =>
        if a.email == e.toLower then
          { a with passwordResetToken := some hashedToken
                   passwordResetExpire := some (now + 1000 * 60 * 15) }
        else a)
      if emailSendOk then
        .ok ⟨accounts', true, "Reset link sent to email"⟩
      else
        .ok ⟨accounts', true, "Email sending failed in dev, use resetUrl"⟩

/-! ### Student-progress analytics (`controllers/analyticsController.js`) -/

/-- A DownloadHistory document, restricted to the denormalized fields
`getStudentProgress` reads.  `downloadedAtDay` is the calendar day of
`downloadedAt` as a day number; the code works on the `YYYY-MM-DD` prefix of
the ISO timestamp, whose ordering, equality and next-day successor agree
with those of day numbers. -/
structure Download where
  noteId : Nat
  studentId : Nat
  noteTitle : String
  noteSubject : String
  noteGrade : String
  downloadedAtDay : Nat
deriving Repr, DecidableEq

/-- Helper for `uniqueKeepFirst`: drop the values already seen. -/
def uniqueKeepFirstAux [BEq α] (seen : List α) : List α → List α
  | [] => []
  | a :: l =>
    if seen.contains a then uniqueKeepFirstAux seen l
    else a :: uniqueKeepFirstAux (seen ++ [a]) l

/-- First occurrence of each value, in order (`[...new Set(xs)]`, and the
insertion order of JavaScript object keys). -/
def uniqueKeepFirst [BEq α] (l : List α) : List α :=
  uniqueKeepFirstAux [] l

/-- Insert into a descending list (helper for `sortDesc`). -/
def insertDesc (x : Nat) : List Nat → List Nat
  | [] => [x]
  | y :: ys => if y ≤ x then x :: y :: ys else y :: insertDesc x ys

/-- `Object.keys(dailyDownloads).sort().reverse()`: the distinct download
days in descending order. -/
def sortDesc (l : List Nat) : List Nat := l.foldr insertDesc []

/-- The body of the streak `for` loop from index 1 on, carried over the
remaining days.  Arguments: the days still to visit, the previous day
visited (`sortedDays[i-1]`), and the running `currentStreak`, `maxStreak`,
`tempStreak`.  When the previous day equals this day plus one (the
`sortedDays[i-1] === nextDayStr` test) the code increments `tempStreak` and
unconditionally copies it into `currentStreak` (its inner guard
`i === 0 || sortedDays[i-1] === nextDayStr` is always true on this branch);
otherwise it folds `tempStreak` into `maxStreak` and restarts at 1.
After the loop `maxStreak = Math.max(maxStreak, tempStreak)`. -/
def streakGo : List Nat → Nat → Nat → Nat → Nat → Nat × Nat
  | [], _, cur, maxS, temp => (cur, max maxS temp)
  | d :: rest, prev, cur, maxS, temp =>
    if prev == d + 1 then
      streakGo rest d (temp + 1) maxS (temp + 1)
    else
      streakGo rest d cur (max maxS temp) 1

/-- The learning-streak computation of `getStudentProgress`:
`(currentStreak, maxStreak)` from the raw list of download days and today's
day.  Index 0 of the loop sets `currentStreak = tempStreak = 1` when the
most recent day is today, and otherwise takes the non-consecutive branch
(`maxStreak = max(0, 0)`, `tempStreak = 1`, `currentStreak` left at 0). -/
def computeStreaks (downloadDays : List Nat) (today : Nat) : Nat × Nat :=
  match sortDesc (uniqueKeepFirst downloadDays) with
  | [] => (0, 0)
  | d :: rest =>
    if d == today then streakGo rest d 1 0 1
    else streakGo rest d 0 (max 0 0) 1

/-- `currentStreak` as reported by `getStudentProgress`. -/
def currentStreak (downloads : List Download) (today : Nat) : Nat :=
  (computeStreaks (downloads.map (fun d => d.downloadedAtDay)) today).1

/-- One value of the `subjectPerformance` object. -/
structure SubjectPerf where
  averageRatingTenths : Nat
  reviewsCount : Nat
  notesCount : Nat
deriving Repr, DecidableEq

/-- `Note.find({ subject, isActive: true, isPublic: true })`. -/
def subjectNotesOf (notes : List Note) (s : String) : List Note :=
  notes.filter (fun n => n.subject == s && n.isActive && n.isPublic)

/-- `Review.find({ noteId: { $in: noteIds }, studentId })`: the student's
own reviews on the subject's notes. -/
def studentSubjectReviews (notes : List Note) (reviews : List Review)
    (studentId : Nat) (s : String) : List Review :=
  reviews.filter (fun r =>
    ((subjectNotesOf notes s).map (fun n => n.id)).contains r.noteId &&
      r.studentId == studentId)

/-- The `subjectPerformance` computation of `getStudentProgress`: the code
iterates `for (const subject of uniqueSubjects)` over every distinct
downloaded subject (there is no slice or limit in the loop), and adds an
entry whenever the student has at least one review on that subject's
active public notes, with the student's average rating rounded to one
decimal. -/
def subjectPerformance (notes : List Note) (reviews : List Review)
    (downloads : List Download) (studentId : Nat) :
    List (String × SubjectPerf) :=
  (uniqueKeepFirst (downloads.map (fun d => d.noteSubject))).filterMap
    (fun s =>
      if (studentSubjectReviews notes reviews studentId s).length != 0 then
        some (s,
          { averageRatingTenths :=
              roundTenths
                (((studentSubjectReviews notes reviews studentId s).map
                    (fun r => r.rating)).sum)
                (studentSubjectReviews notes reviews studentId s).length
            reviewsCount := (studentSubjectReviews notes reviews studentId s).length
            notesCount := (subjectNotesOf notes s).length })
      else none)

/-! ### Small observers used by the theorems -/

/-- The status code of a rejected call, `none` on success. -/
def errorStatus : Except ErrorResponse DB → Option Nat
  | .error e => some e.statusCode
  | .ok _ => none

/-- The `success` flag of a `forgotPassword` reply, `none` on rejection. -/
def replySuccess : Except ErrorResponse ForgotPasswordReply → Option Bool
  | .ok rep => some rep.success
  | .error _ => none

/-- Boolean check that no two reviews in the list share their
(noteId, studentId) pair — the invariant the compound unique index
`ReviewSchema.index({noteId, studentId}, {unique: true})` enforces. -/
def uniquePerPair : List Review → Bool
  | [] => true
  | r :: rest =>
    !rest.any (fun x => x.noteId == r.noteId && x.studentId == r.studentId) &&
      uniquePerPair rest

/-! ### Fixtures -/

/-- A public active Note owned by teacher 7 with no reviews yet. -/
def c1Note : Note :=
  { id := 1, title := "Algebra", description := "Lecture notes on algebra"
    subject := "Math", grade := "10", uploadedBy := 7 }

/-- Database before the C1 scenario: the note and no reviews. -/
def c1Db0 : DB := { notes := [c1Note], reviews := [] }

/-- State after student 2 creates the Note's only review (5 stars). -/
def c1Db1 : DB := applyResult c1Db0 (createReview c1Db0 2 10 1 5 "" {})

/-- State after student 2 then deletes that review. -/
def c1Db2 : DB := applyResult c1Db1 (deleteReview c1Db1 2 10)

/-- A review that does not qualify for statistics (reported). -/
def c3Review : Review :=
  { id := 10, noteId := 1, studentId := 2, rating := 5, isApproved := false }

/-- Two consecutive download days (4 and 5), with today being day 100. -/
def c6Downloads : List Download :=
  [ { noteId := 1, studentId := 2, noteTitle := "Algebra"
      noteSubject := "Math", noteGrade := "10", downloadedAtDay := 4 },
    { noteId := 1, studentId := 2, noteTitle := "Algebra"
      noteSubject := "Math", noteGrade := "10", downloadedAtDay := 5 } ]

/-! ### C1, C3, C6, C8 -/

/-- C1: the claim says that immediately after any Review create, update,
delete or report affecting a Note, the Note's stored ratingCount equals the
number of active approved Reviews and averageRating their rounded mean,
both 0 after the student deletes their only Review.  The delete path breaks
this: `deleteReview` calls `review.deleteOne()`, which does not fire the
schema's `post('remove')` hook, so no recompute happens.  Evaluating the
code at the failing input: after creating the only (5-star) review the Note
correctly stores average 5.0 and count 1, but after deleting it the Note
still stores average 5.0 and count 1 even though no qualifying review
remains, where the claim requires 0 and 0. -/
theorem deleteReview_leaves_stale_aggregate :
    createReview c1Db0 2 10 1 5 "" {} = .ok c1Db1 ∧
    (findNote c1Db1.notes 1).map (fun n => (n.averageRatingTenths, n.ratingCount)) =
      some (50, 1) ∧
    deleteReview c1Db1 2 10 = .ok c1Db2 ∧
    qualifying c1Db2.reviews 1 = [] ∧
    (findNote c1Db2.notes 1).map (fun n => (n.averageRatingTenths, n.ratingCount)) =
      some (50, 1) :=
  ⟨rfl, rfl, rfl, rfl, rfl⟩

/-- C3: for a Note with zero qualifying (active, approved) reviews,
`getStatistics` returns average 0, total 0, a zero histogram and zero
category counters; the embedded function is total, so no error is
signalled. -/
theorem getStatistics_zero_qualifying (reviews : List Review) (noteId : Nat)
    (h : qualifying reviews noteId = []) :
    getStatistics reviews noteId = ⟨0, 0, 0, 0, 0, 0, 0, 0, 0, 0, 0⟩ := by
  simp [getStatistics, h, zeroStatistics]

/-- Witness for C3 at a concrete input: one review exists for the note but
it is not approved, so nothing qualifies and the zero defaults are
returned. -/
theorem getStatistics_zero_qualifying_witness :
    getStatistics [c3Review] 1 = ⟨0, 0, 0, 0, 0, 0, 0, 0, 0, 0, 0⟩ :=
  getStatistics_zero_qualifying [c3Review] 1 rfl

/-- C6: the claim says `currentStreak` is non-zero only when some download
is dated today.  The code's streak loop copies `tempStreak` into
`currentStreak` on every consecutive-day step, even for a run that is not
anchored at today, so a history with downloads on days 4 and 5 and today
being day 100 (no download today) yields `currentStreak = 2` where the
claim requires 0. -/
theorem currentStreak_nonzero_without_today :
    (c6Downloads.map (fun d => d.downloadedAtDay)).contains 100 = false ∧
    currentStreak c6Downloads 100 = 2 ∧
    computeStreaks [4, 5] 100 = (2, 2) :=
  ⟨rfl, rfl, rfl⟩

/-- C8: `forgotPassword` with an email supplied always replies with
`success: true` — when no account matches (anti-enumeration reply), when
the reset email is sent, and when sending fails (dev fallback) — so the
success status is identical across any two runs with an email present,
in particular across two runs differing only in whether the email belongs
to an existing account. -/
theorem forgotPassword_uniform_success (accounts accounts2 : List Account)
    (e tok tok2 : String) (now now2 : Nat) (sendOk sendOk2 : Bool) :
    replySuccess (forgotPassword accounts (some e) tok now sendOk) = some true ∧
    replySuccess (forgotPassword accounts2 (some e) tok2 now2 sendOk2) =
      replySuccess (forgotPassword accounts (some e) tok now sendOk) := by
  have key : ∀ (acc : List Account) (t : String) (n : Nat) (s : Bool),
      replySuccess (forgotPassword acc (some e) t n s) = some true := by
    intro acc t n s
    unfold forgotPassword
    cases hf : acc.find? (fun a => a.email == e.toLower) <;> cases s <;>
      simp [replySuccess, hf]
  exact ⟨key accounts tok now sendOk, by rw [key, key]⟩

/-! ### C10: helpfulness votes -/

/-- Counting effect of folding `addHelpfulVote` over a vote sequence:
`totalVotes` grows by the number of votes and `helpfulVotes` by the number
of helpful ones. -/
theorem foldl_addHelpfulVote_counts (r : Review) (votes : List Bool) :
    (votes.foldl addHelpfulVote r).totalVotes = r.totalVotes + votes.length ∧
    (votes.foldl addHelpfulVote r).helpfulVotes =
      r.helpfulVotes + (votes.filter (fun v => v)).length := by
  induction votes generalizing r with
  | nil => simp
  | cons v vs ih =>
    have h := ih (addHelpfulVote r v)
    simp only [List.foldl_cons]
    constructor
    · rw [h.1]; cases v <;> (simp [addHelpfulVote]; try omega)
    · rw [h.2]; cases v <;> (simp [addHelpfulVote, List.filter_cons]; try omega)

/-- A fresh review as `voteOnReview` first sees it: both counters zero. -/
def c10Review : Review := { id := 20, noteId := 1, studentId := 3, rating := 4 }

/-- C10: each `addHelpfulVote` (the operation `voteOnReview` applies and
saves) increments `totalVotes` by exactly one and `helpfulVotes` by one
exactly when the vote is helpful; folding any vote sequence over a fresh
review (both counters 0) gives `totalVotes` = number of votes and
`helpfulVotes` = number of helpful votes, hence
`helpfulVotes ≤ totalVotes`; and the `helpfulnessPercentage` virtual is 0
(not a division error) while `totalVotes` is 0. -/
theorem addHelpfulVote_invariant (r0 r : Review) (votes : List Bool) (b : Bool)
    (h0 : r0.helpfulVotes = 0) (ht : r0.totalVotes = 0) :
    (addHelpfulVote r b).totalVotes = r.totalVotes + 1 ∧
    (addHelpfulVote r b).helpfulVotes =
      (if b then r.helpfulVotes + 1 else r.helpfulVotes) ∧
    (votes.foldl addHelpfulVote r0).totalVotes = votes.length ∧
    (votes.foldl addHelpfulVote r0).helpfulVotes =
      (votes.filter (fun v => v)).length ∧
    (votes.foldl addHelpfulVote r0).helpfulVotes ≤
      (votes.foldl addHelpfulVote r0).totalVotes ∧
    helpfulnessPercentage r0 = 0 := by
  have h := foldl_addHelpfulVote_counts r0 votes
  refine ⟨rfl, by cases b <;> simp [addHelpfulVote], ?_, ?_, ?_, ?_⟩
  · rw [h.1, ht]; omega
  · rw [h.2, h0]; omega
  · rw [h.1, h.2, h0, ht]
    simpa using List.length_filter_le (fun v => v) votes
  · simp [helpfulnessPercentage, ht]

/-- Witness for C10 at a concrete input: a fresh review and the vote
sequence helpful, unhelpful, helpful. -/
theorem addHelpfulVote_invariant_witness :
    (addHelpfulVote c10Review true).totalVotes = c10Review.totalVotes + 1 ∧
    (addHelpfulVote c10Review true).helpfulVotes =
      (if true then c10Review.helpfulVotes + 1 else c10Review.helpfulVotes) ∧
    ([true, false, true].foldl addHelpfulVote c10Review).totalVotes =
      [true, false, true].length ∧
    ([true, false, true].foldl addHelpfulVote c10Review).helpfulVotes =
      ([true, false, true].filter (fun v => v)).length ∧
    ([true, false, true].foldl addHelpfulVote c10Review).helpfulVotes ≤
      ([true, false, true].foldl addHelpfulVote c10Review).totalVotes ∧
    helpfulnessPercentage c10Review = 0 :=
  addHelpfulVote_invariant c10Review c10Review [true, false, true] true rfl rfl

/-! ### C9: subjects considered by subjectPerformance -/

/-- Projecting the keys out of a `filterMap` that keeps `s` paired with a
computed value exactly when a boolean test holds gives the `filter` by that
test. -/
theorem map_fst_filterMap_ite {α β : Type} (g : α → β) (p : α → Bool)
    (l : List α) :
    (l.filterMap (fun s => if p s then some (s, g s) else none)).map Prod.fst
      = l.filter p := by
  induction l with
  | nil => rfl
  | cons a l ih =>
    by_cases h : p a <;> simp [List.filterMap_cons, h, List.filter_cons, ih]

/-- C9 (amended): the subjects `subjectPerformance` reports are exactly all
the distinct subjects of the student's downloads that have at least one of
the student's reviews on a matching active public note — the loop iterates
over every distinct subject with no limit of 10. -/
theorem subjectPerformance_considers_all_subjects (notes : List Note)
    (reviews : List Review) (downloads : List Download) (studentId : Nat) :
    (subjectPerformance notes reviews downloads studentId).map Prod.fst =
      (uniqueKeepFirst (downloads.map (fun d => d.noteSubject))).filter
        (fun s => (studentSubjectReviews notes reviews studentId s).length != 0) := by
  unfold subjectPerformance
  exact map_fst_filterMap_ite
    (fun s =>
      ({ averageRatingTenths :=
           roundTenths
             (((studentSubjectReviews notes reviews studentId s).map
                 (fun r => r.rating)).sum)
             (studentSubjectReviews notes reviews studentId s).length
         reviewsCount := (studentSubjectReviews notes reviews studentId s).length
         notesCount := (subjectNotesOf notes s).length } : SubjectPerf))
    _ _

/-- Eleven active public notes in eleven distinct subjects. -/
def c9Notes : List Note :=
  [ { id := 1, title := "N1", description := "Notes one", subject := "s01", grade := "g", uploadedBy := 50 },
    { id := 2, title := "N2", description := "Notes two", subject := "s02", grade := "g", uploadedBy := 50 },
    { id := 3, title := "N3", description := "Notes three", subject := "s03", grade := "g", uploadedBy := 50 },
    { id := 4, title := "N4", description := "Notes four", subject := "s04", grade := "g", uploadedBy := 50 },
    { id := 5, title := "N5", description := "Notes five", subject := "s05", grade := "g", uploadedBy := 50 },
    { id := 6, title := "N6", description := "Notes six", subject := "s06", grade := "g", uploadedBy := 50 },
    { id := 7, title := "N7", description := "Notes seven", subject := "s07", grade := "g", uploadedBy := 50 },
    { id := 8, title := "N8", description := "Notes eight", subject := "s08", grade := "g", uploadedBy := 50 },
    { id := 9, title := "N9", description := "Notes nine", subject := "s09", grade := "g", uploadedBy := 50 },
    { id := 10, title := "N10", description := "Notes ten", subject := "s10", grade := "g", uploadedBy := 50 },
    { id := 11, title := "N11", description := "Notes eleven", subject := "s11", grade := "g", uploadedBy := 50 } ]

/-- One review by student 1 on each of the eleven notes. -/
def c9Reviews : List Review :=
  [ { id := 101, noteId := 1, studentId := 1, rating := 4 },
    { id := 102, noteId := 2, studentId := 1, rating := 4 },
    { id := 103, noteId := 3, studentId := 1, rating := 4 },
    { id := 104, noteId := 4, studentId := 1, rating := 4 },
    { id := 105, noteId := 5, studentId := 1, rating := 4 },
    { id := 106, noteId := 6, studentId := 1, rating := 4 },
    { id := 107, noteId := 7, studentId := 1, rating := 4 },
    { id := 108, noteId := 8, studentId := 1, rating := 4 },
    { id := 109, noteId := 9, studentId := 1, rating := 4 },
    { id := 110, noteId := 10, studentId := 1, rating := 4 },
    { id := 111, noteId := 11, studentId := 1, rating := 4 } ]

/-- One download by student 1 from each of the eleven subjects. -/
def c9Downloads : List Download :=
  [ { noteId := 1, studentId := 1, noteTitle := "N1", noteSubject := "s01", noteGrade := "g", downloadedAtDay := 10 },
    { noteId := 2, studentId := 1, noteTitle := "N2", noteSubject := "s02", noteGrade := "g", downloadedAtDay := 10 },
    { noteId := 3, studentId := 1, noteTitle := "N3", noteSubject := "s03", noteGrade := "g", downloadedAtDay := 10 },
    { noteId := 4, studentId := 1, noteTitle := "N4", noteSubject := "s04", noteGrade := "g", downloadedAtDay := 10 },
    { noteId := 5, studentId := 1, noteTitle := "N5", noteSubject := "s05", noteGrade := "g", downloadedAtDay := 10 },
    { noteId := 6, studentId := 1, noteTitle := "N6", noteSubject := "s06", noteGrade := "g", downloadedAtDay := 10 },
    { noteId := 7, studentId := 1, noteTitle := "N7", noteSubject := "s07", noteGrade := "g", downloadedAtDay := 10 },
    { noteId := 8, studentId := 1, noteTitle := "N8", noteSubject := "s08", noteGrade := "g", downloadedAtDay := 10 },
    { noteId := 9, studentId := 1, noteTitle := "N9", noteSubject := "s09", noteGrade := "g", downloadedAtDay := 10 },
    { noteId := 10, studentId := 1, noteTitle := "N10", noteSubject := "s10", noteGrade := "g", downloadedAtDay := 10 },
    { noteId := 11, studentId := 1, noteTitle := "N11", noteSubject := "s11", noteGrade := "g", downloadedAtDay := 10 } ]

/-- C9 counterexample: with eleven distinct downloaded subjects, every one
of them — including the eleventh — is considered and reported by
`subjectPerformance`, so the computation does not restrict itself to the
first 10 distinct subjects as the claim states. -/
theorem subjectPerformance_eleven_subjects :
    (uniqueKeepFirst (c9Downloads.map (fun d => d.noteSubject))).length = 11 ∧
    (subjectPerformance c9Notes c9Reviews c9Downloads 1).map Prod.fst =
      ["s01", "s02", "s03", "s04", "s05", "s06", "s07", "s08", "s09", "s10", "s11"] :=
  ⟨rfl, rfl⟩

/-! ### C7: file attachment on Note creation -/

/-- C7 (amended): a create-Note request through the `POST /api/notes`
pipeline by an authenticated active teacher with valid metadata but no
attached file is rejected with 400 "Please upload a file" — the controller
requires a file even though the route's upload middleware treats it as
optional. -/
theorem uploadNote_requires_file (db : DB) (u : AuthUser) (body : NoteBody)
    (newId : Nat) (hactive : u.isActive = true)
    (hrole : u.role = Role.teacher) (hvalid : validateNote body = []) :
    postNoteRoute db (some u) body none newId =
      .error ⟨"Please upload a file", 400⟩ := by
  obtain ⟨uid, urole, uact⟩ := u
  have h1 : uact = true := hactive
  have h2 : urole = Role.teacher := hrole
  subst h1
  subst h2
  have step : postNoteRoute db (some ⟨uid, Role.teacher, true⟩) body none newId
      = uploadNote db ⟨uid, Role.teacher, true⟩ body none newId := rfl
  rw [step]
  unfold uploadNote
  rw [hvalid]
  rfl

/-- An active teacher account. -/
def c7Teacher : AuthUser := { id := 7, role := Role.teacher }

/-- A create-Note body that passes every validator check. -/
def c7Body : NoteBody :=
  { title := "Algebra Basics", description := "Introductory algebra notes"
    subject := "Math", grade := "10" }

/-- C7 counterexample: the concrete no-file create-Note request by a valid
teacher with valid metadata is rejected with 400 "Please upload a file",
not accepted as the claim states. -/
theorem postNote_missing_file_rejected :
    postNoteRoute { notes := [], reviews := [] } (some c7Teacher) c7Body none 99 =
      .error ⟨"Please upload a file", 400⟩ :=
  rfl

/-- Witness for the amended C7 theorem at a concrete input (a database
already holding the C1 note). -/
theorem uploadNote_requires_file_witness :
    postNoteRoute c1Db0 (some c7Teacher) c7Body none 42 =
      .error ⟨"Please upload a file", 400⟩ :=
  uploadNote_requires_file c1Db0 c7Teacher c7Body 42 rfl rfl rfl

/-! ### C4: one review per (Note, Student) pair -/

/-- Appending a review whose (noteId, studentId) pair occurs nowhere in the
list preserves pairwise uniqueness of the pairs. -/
theorem uniquePerPair_append (l : List Review) (r : Review)
    (hl : uniquePerPair l = true)
    (hr : l.any (fun x => x.noteId == r.noteId && x.studentId == r.studentId) = false) :
    uniquePerPair (l ++ [r]) = true := by
  induction l with
  | nil => simp [uniquePerPair]
  | cons a l ih =>
    simp only [uniquePerPair, Bool.and_eq_true, Bool.not_eq_true'] at hl
    simp only [List.any_cons, Bool.or_eq_false_iff] at hr
    have h2 := ih hl.2 hr.2
    have hsym : (r.noteId == a.noteId && r.studentId == a.studentId) = false := by
      have := hr.1
      simp only [Bool.and_eq_false_iff, beq_eq_false_iff_ne, ne_eq] at this ⊢
      tauto
    show ((!(l ++ [r]).any fun x => x.noteId == a.noteId && x.studentId == a.studentId) &&
        uniquePerPair (l ++ [r])) = true
    rw [List.any_append]
    simp [hl.1, h2, hsym]

/-- C4: reviews are unique per (Note, Student) pair.  For an existing,
available Note: when the student already has a review for it, the create
request is answered with the 400 conflict error ("You have already reviewed
this note. Use update instead."); and in every case — conflict rejection or
successful insert of a first review — the review collection resulting from
the request still has at most one review per (Note, Student) pair, so no
second Review for the pair is ever created. -/
theorem createReview_unique_per_pair (db : DB)
    (userId newId noteId rating : Nat) (comment : String) (cats : Categories)
    (note : Note)
    (hnote : findNote db.notes noteId = some note)
    (havail : (note.isActive && note.isPublic) = true)
    (hinv : uniquePerPair db.reviews = true) :
    (db.reviews.any (fun r => r.noteId == noteId && r.studentId == userId) = false ∨
      createReview db userId newId noteId rating comment cats =
        .error ⟨"You have already reviewed this note. Use update instead.", 400⟩) ∧
    uniquePerPair
      (applyResult db (createReview db userId newId noteId rating comment cats)).reviews
        = true := by
  cases hany : db.reviews.any (fun r => r.noteId == noteId && r.studentId == userId) with
  | true =>
    have herr : createReview db userId newId noteId rating comment cats =
        .error ⟨"You have already reviewed this note. Use update instead.", 400⟩ := by
      unfold createReview
      rw [hnote]
      simp [havail, hany]
    exact ⟨Or.inr herr, by rw [herr]; exact hinv⟩
  | false =>
    have hok : createReview db userId newId noteId rating comment cats =
        .ok (postSaveHook
          { db with reviews := db.reviews ++
              [{ id := newId, noteId := noteId, studentId := userId
                 rating := rating, comment := comment, categories := cats }] }
          noteId) := by
      unfold createReview
      rw [hnote]
      simp [havail, hany]
    refine ⟨Or.inl rfl, ?_⟩
    rw [hok]
    exact uniquePerPair_append db.reviews _ hinv hany

/-- Database for the C4 witness: the C1 note with one existing review by
student 2. -/
def c4Db : DB :=
  { notes := [c1Note]
    reviews := [{ id := 10, noteId := 1, studentId := 2, rating := 4 }] }

/-- Witness for C4 at a concrete input: student 2 attempts a second review
of note 1. -/
theorem createReview_unique_per_pair_witness :
    (c4Db.reviews.any (fun r => r.noteId == 1 && r.studentId == 2) = false ∨
      createReview c4Db 2 11 1 5 "" {} =
        .error ⟨"You have already reviewed this note. Use update instead.", 400⟩) ∧
    uniquePerPair (applyResult c4Db (createReview c4Db 2 11 1 5 "" {})).reviews = true :=
  createReview_unique_per_pair c4Db 2 11 1 5 "" {} c1Note rfl rfl rfl

/-! ### C5: ownership and role enforcement on Note mutation -/

/-- C5: for an authenticated active caller who is either a student (any
student, owner or not) or a teacher who does not own the target note
(`note.uploadedBy ≠ caller.id`), the update and delete routes reject the
request with a 403 authorization error and leave the database unchanged;
and when the caller is not a teacher, the create route is likewise rejected
with 403 and changes nothing (a non-owning teacher may still create new
notes, hence the disjunct). -/
theorem note_mutation_authorization (db : DB) (u : AuthUser) (noteId : Nat)
    (note : Note) (body : NoteUpdateBody) (file : Option FileInfo)
    (nbody : NoteBody) (nfile : Option FileInfo) (newId : Nat)
    (hactive : u.isActive = true)
    (hnote : findNote db.notes noteId = some note)
    (hbad : (u.role == Role.student || note.uploadedBy != u.id) = true) :
    errorStatus (putNoteRoute db (some u) noteId body file) = some 403 ∧
    applyResult db (putNoteRoute db (some u) noteId body file) = db ∧
    errorStatus (deleteNoteRoute db (some u) noteId) = some 403 ∧
    applyResult db (deleteNoteRoute db (some u) noteId) = db ∧
    (u.role = Role.teacher ∨
      (errorStatus (postNoteRoute db (some u) nbody nfile newId) = some 403 ∧
       applyResult db (postNoteRoute db (some u) nbody nfile newId) = db)) := by
  obtain ⟨uid, urole, uact⟩ := u
  have h1 : uact = true := hactive
  subst h1
  cases urole with
  | student =>
    exact ⟨rfl, rfl, rfl, rfl, Or.inr ⟨rfl, rfl⟩⟩
  | teacher =>
    have hno : (note.uploadedBy != uid) = true := by simpa using hbad
    have hco : checkOwnership db.notes ⟨uid, Role.teacher, true⟩ noteId =
        .error ⟨"Access denied. You can only modify your own resources.", 403⟩ := by
      unfold checkOwnership
      rw [hnote]
      simp only [hno]
      rfl
    have hput : putNoteRoute db (some ⟨uid, Role.teacher, true⟩) noteId body file =
        .error ⟨"Access denied. You can only modify your own resources.", 403⟩ := by
      show (match checkOwnership db.notes ⟨uid, Role.teacher, true⟩ noteId with
            | .error e => .error e
            | .ok note => updateNote db note body file) =
          Except.error ⟨"Access denied. You can only modify your own resources.", 403⟩
      rw [hco]
    have hdel : deleteNoteRoute db (some ⟨uid, Role.teacher, true⟩) noteId =
        .error ⟨"Access denied. You can only modify your own resources.", 403⟩ := by
      show (match checkOwnership db.notes ⟨uid, Role.teacher, true⟩ noteId with
            | .error e => .error e
            | .ok note => deleteNote db note) =
          Except.error ⟨"Access denied. You can only modify your own resources.", 403⟩
      rw [hco]
    refine ⟨?_, ?_, ?_, ?_, Or.inl rfl⟩
    · rw [hput]; rfl
    · rw [hput]; rfl
    · rw [hdel]; rfl
    · rw [hdel]; rfl

/-- Another teacher (id 8), distinct from the owner (id 7) of the C1
note. -/
def c5OtherTeacher : AuthUser := { id := 8, role := Role.teacher }

/-- Witness for C5 at a concrete input: teacher 8 attempts to update and
delete note 1, which teacher 7 owns. -/
theorem note_mutation_authorization_witness :
    errorStatus (putNoteRoute c1Db0 (some c5OtherTeacher) 1 {} none) = some 403 ∧
    applyResult c1Db0 (putNoteRoute c1Db0 (some c5OtherTeacher) 1 {} none) = c1Db0 ∧
    errorStatus (deleteNoteRoute c1Db0 (some c5OtherTeacher) 1) = some 403 ∧
    applyResult c1Db0 (deleteNoteRoute c1Db0 (some c5OtherTeacher) 1) = c1Db0 ∧
    (c5OtherTeacher.role = Role.teacher ∨
      (errorStatus (postNoteRoute c1Db0 (some c5OtherTeacher) c7Body none 55) = some 403 ∧
       applyResult c1Db0 (postNoteRoute c1Db0 (some c5OtherTeacher) c7Body none 55) = c1Db0)) :=
  note_mutation_authorization c1Db0 c5OtherTeacher 1 c1Note {} none c7Body none 55
    rfl rfl rfl

/-! ### C2: reporting a review excludes it from statistics -/

/-- `getStatistics` depends only on the qualifying review list. -/
theorem getStatistics_congr (l l' : List Review) (nid : Nat)
    (h : qualifying l nid = qualifying l' nid) :
    getStatistics l nid = getStatistics l' nid := by
  unfold getStatistics
  rw [h]

/-- Unfolding `qualifying` over a cons cell. -/
theorem qualifying_cons (x : Review) (l : List Review) (nid : Nat) :
    qualifying (x :: l) nid =
      if (x.noteId == nid && x.isActive && x.isApproved) = true
      then x :: qualifying l nid else qualifying l nid := by
  simp [qualifying, List.filter_cons]

/-- Writing a non-approved document over every review with the given id
makes the qualifying set the same as if those reviews were dropped
entirely. -/
theorem qualifying_save_disapproved (l : List Review) (rid : Nat)
    (r' : Review) (happ : r'.isApproved = false) (nid : Nat) :
    qualifying (l.map (fun x => if x.id == rid then r' else x)) nid =
      qualifying (l.filter (fun x => !(x.id == rid))) nid := by
  induction l with
  | nil => rfl
  | cons x l ih =>
    simp only [List.map_cons, List.filter_cons]
    simp at ih
    by_cases hx : x.id = rid
    · have hxb : (x.id == rid) = true := by simpa using hx
      simpa [hxb, qualifying_cons, happ] using ih
    · have hxb : (x.id == rid) = false := by simpa using hx
      simp [hxb, qualifying_cons, ih]

/-- C2: when `reportReview` succeeds, every stored review with the reported
id has `isApproved = false`, and any subsequent statistics read computes
over exactly the remaining reviews — the statistics of the new collection
equal the statistics of the old collection with the reported review removed
altogether, for every note. -/
theorem reportReview_excludes_from_statistics (db : DB) (uid rid : Nat)
    (now : String) (db' : DB) (nid : Nat)
    (h : reportReview db uid rid now = .ok db') :
    db'.reviews.all (fun r => !(r.id == rid) || !r.isApproved) = true ∧
    getStatistics db'.reviews nid =
      getStatistics (db.reviews.filter (fun r => !(r.id == rid))) nid := by
  unfold reportReview at h
  cases hf : findReview db.reviews rid with
  | none =>
    rw [hf] at h
    exact absurd h (by simp)
  | some review =>
    rw [hf] at h
    have hid : review.id = rid := by
      have hf2 : db.reviews.find? (fun r => r.id == rid) = some review := hf
      have h1 : (review.id == rid) = true :=
        List.find?_some (p := fun (r : Review) => r.id == rid) hf2
      simpa using h1
    have h2 : Except.ok (ε := ErrorResponse) (saveReview db
        { review with isApproved := false
                      moderationNote :=
                        "Reported by user " ++ toString uid ++ " on " ++ now })
        = Except.ok db' := h
    injection h2 with h3
    subst h3
    constructor
    · rw [List.all_eq_true]
      intro r hr
      rcases List.mem_map.mp hr with ⟨x, hx, rfl⟩
      by_cases hxr : x.id = rid
      · simp [hxr, hid]
      · simp [hxr, hid]
    · have hrev : (saveReview db
          { review with isApproved := false
                        moderationNote :=
                          "Reported by user " ++ toString uid ++ " on " ++ now }).reviews
          = db.reviews.map (fun x => if x.id == rid then
              { review with isApproved := false
                            moderationNote :=
                              "Reported by user " ++ toString uid ++ " on " ++ now }
              else x) := by
        simp only [saveReview, postSaveHook, hid]
      rw [hrev]
      exact getStatistics_congr _ _ nid
        (qualifying_save_disapproved db.reviews rid _ rfl nid)

/-- Database for the C2 witness: note 1 with two approved reviews (5 stars
by student 2, 3 stars by student 3) and the aggregate already written. -/
def c2Db : DB :=
  { notes := [{ c1Note with averageRatingTenths := 40, ratingCount := 2 }]
    reviews := [{ id := 10, noteId := 1, studentId := 2, rating := 5 },
                { id := 11, noteId := 1, studentId := 3, rating := 3 }] }

/-- State after student 3 reports review 10. -/
def c2Db' : DB :=
  applyResult c2Db (reportReview c2Db 3 10 "2026-01-02T00:00:00.000Z")

/-- Witness for C2 at a concrete input: after review 10 is reported, it is
flagged non-approved and the note's statistics are those of the remaining
review alone. -/
theorem reportReview_excludes_from_statistics_witness :
    c2Db'.reviews.all (fun r => !(r.id == 10) || !r.isApproved) = true ∧
    getStatistics c2Db'.reviews 1 =
      getStatistics (c2Db.reviews.filter (fun r => !(r.id == 10))) 1 :=
  reportReview_excludes_from_statistics c2Db 3 10 "2026-01-02T00:00:00.000Z"
    c2Db' 1 rfl

end SmartStudy
